import Mathlib

/-!
Verification development for the agent-orchestration demo repository
(autogen and semantic-kernel scenario scripts). The Python message
dataclasses and the pure content of each message handler are embedded
as Lean definitions; the external chat-completion service is an
explicit function parameter (`svc`), so every theorem quantifies over
arbitrary service behaviour. Python string-keyed dicts are embedded as
association lists with Python dict-assignment semantics (overwrite in
place when the key exists, append otherwise); Python float literals
that are only ever assigned and compared (confidence scores) are
embedded as rationals.
-/

/-- Association-list embedding of a Python `Dict[str, str]`.
`d[k] = v` overwrites in place when `k` is present (Python dicts hold
each key once, so replacing the first occurrence is exact) and appends
`(k, v)` otherwise, matching Python dict-assignment semantics. -/
def dictInsert : List (String × String) → String → String → List (String × String)
  | [], k, v => [(k, v)]
  | p :: t, k, v => if p.1 == k then (k, v) :: t else p :: dictInsert t k v

/-- Lookup embedding of Python `d[k]`: `none` models a `KeyError`. -/
def dictFind? (d : List (String × String)) (k : String) : Option String :=
  (d.find? (fun q => q.1 == k)).map (fun q => q.2)

/-- Rendering of a dict into prompt text; abstracts the Python
`str(d)` / f-string rendering, whose exact shape no handler inspects. -/
def dictStr (d : List (String × String)) : String :=
  String.intercalate ", " (d.map (fun q => q.1 ++ "=" ++ q.2))

/-- Substring test on character lists: `containsSub sub s` embeds the
Python expression `sub in s`. -/
def containsSub (sub : List Char) : List Char → Bool
  | [] => sub.isEmpty
  | c :: t => sub.isPrefixOf (c :: t) || containsSub sub t

/-- String-level substring test: `strContains s sub` embeds Python
`sub in s`. -/
def strContains (s sub : String) : Bool :=
  containsSub sub.data s.data

/-- Capitalize one word: upper-case the first character, lower-case
the rest, as Python `str.title` does per word. -/
def capitalizeWord (w : String) : String :=
  match w.data with
  | [] => ""
  | c :: cs => String.mk (c.toUpper :: cs.map Char.toLower)

/-- Embedding of Python `str.title` restricted to space-separated
words, which is the only shape it is applied to in the source. -/
def titleCase (s : String) : String :=
  String.intercalate " " ((s.splitOn " ").map capitalizeWord)

namespace AgSequential

/-- Dataclass `InvestmentTask` from `ag_sequential.py`: `company` and
the payload dict `data` (all payload values used are strings). -/
structure InvestmentTask where
  company : String
  data : List (String × String)
deriving DecidableEq

/-- System prompt of `DataCollectorAgent`. -/
def collectorSystem : String := "Gather and validate financial data."

/-- System prompt of `FundamentalAnalystAgent`. -/
def analystSystem : String := "Perform fundamental analysis."

/-- System prompt of `ReportGeneratorAgent`. -/
def reportSystem : String := "Produce the final investment report."

/-- Effect of `DataCollectorAgent.on_collect` once the completion
`content` is known: the handler executes
`message.data["collected"] = result.content` on the received task and
then publishes that same task. The first component is the post-handler
state of the received task, the second the task published to the
`FundamentalAnalyst` topic; in the source they are one object. -/
def onCollect (content : String) (m : InvestmentTask) : InvestmentTask × InvestmentTask :=
  let mutated : InvestmentTask := ⟨m.company, dictInsert m.data "collected" content⟩
  (mutated, mutated)

/-- Effect of `FundamentalAnalystAgent.on_analyze` once the completion
`content` is known: `message.data["analysis"] = result.content`, then
publish the same task to the `ReportGenerator` topic. -/
def onAnalyze (content : String) (m : InvestmentTask) : InvestmentTask × InvestmentTask :=
  let mutated : InvestmentTask := ⟨m.company, dictInsert m.data "analysis" content⟩
  (mutated, mutated)

/-- Task published by `on_collect` given the completion service `svc`
(applied to the system prompt and the user content, here
`str(message.data)`). -/
def collectPublished (svc : String → String → String) (m : InvestmentTask) : InvestmentTask :=
  (onCollect (svc collectorSystem (dictStr m.data)) m).2

/-- Task published by `on_analyze`: the handler reads
`message.data["collected"]` (a `KeyError`, modelled as `none`, if the
key is absent) and writes `analysis`. -/
def analyzePublished? (svc : String → String → String) (m : InvestmentTask) :
    Option InvestmentTask :=
  match dictFind? m.data "collected" with
  | none => none
  | some c => some (onAnalyze (svc analystSystem c) m).2

/-- Console output of `ReportGeneratorAgent.on_report`: reads
`message.data["analysis"]` and prints the final report. -/
def reportOutput? (svc : String → String → String) (m : InvestmentTask) : Option String :=
  match dictFind? m.data "analysis" with
  | none => none
  | some a =>
    some ("\nFinal Report for " ++ m.company ++ ":\n" ++ svc reportSystem a)

/-- Message history of one sequential run: the initial task, the task
after each of the two intermediate stages, and the printed report. -/
structure SeqHistory where
  initial : InvestmentTask
  afterCollect : InvestmentTask
  afterAnalyze : InvestmentTask
  report : String
deriving DecidableEq

/-- One run of `run_sequential_scenario` over the three registered
stages in declared order (DataCollector, FundamentalAnalyst,
ReportGenerator), with the completion service `svc`. -/
def runSequential (svc : String → String → String) (t : InvestmentTask) :
    Option SeqHistory :=
  let t1 := collectPublished svc t
  match analyzePublished? svc t1 with
  | none => none
  | some t2 =>
    match reportOutput? svc t2 with
    | none => none
    | some r => some ⟨t, t1, t2, r⟩

/-- Second stage as a total transformation (the key `collected` is
always present when the stage is reached along the pipeline). -/
def analystStage (svc : String → String → String) (m : InvestmentTask) : InvestmentTask :=
  (onAnalyze (svc analystSystem ((dictFind? m.data "collected").getD "")) m).2

/-- Third stage as a total transformation producing the report text. -/
def reportStage (svc : String → String → String) (m : InvestmentTask) : String :=
  "\nFinal Report for " ++ m.company ++ ":\n" ++
    svc reportSystem ((dictFind? m.data "analysis").getD "")

/-- Seed task published by `run_sequential_scenario`. -/
def sampleTask : InvestmentTask :=
  ⟨"GreenTech Solutions Inc.", [("sector", "Renewable Energy"), ("market_cap", "$5B")]⟩

/-- Deterministic stub completion service echoing its user content. -/
def stubSvc : String → String → String :=
  fun _sys user => user

end AgSequential

namespace AgHandoff

/-- Dataclass `InvestmentRequest` from `ag_handoff.py`. -/
structure InvestmentRequest where
  company : String
  inquiry : String
  request_id : String
deriving DecidableEq

/-- Dataclass `HandoffResponse` from `ag_handoff.py`. -/
structure HandoffResponse where
  handler : String
  content : String
  request_id : String
deriving DecidableEq

/-- System prompt of `TriageAdvisor` (source quotes the two handler
names with single quotation marks). -/
def triageSystem : String :=
  "Route refund inquiries to \x27refund\x27 and investment questions to \x27specialist\x27."

/-- System prompt of `EquitySpecialist`. -/
def equitySystem : String := "Provide detailed investment analysis."

/-- `TriageAdvisor.on_request`: calls the completion service on the
inquiry, picks the handler by the keyword test
`"invest" in message.inquiry.lower()`, and publishes a
`HandoffResponse` carrying the service output and the request id. -/
def onRequest (svc : String → String → String) (m : InvestmentRequest) : HandoffResponse :=
  let result := svc triageSystem m.inquiry
  let choice := if strContains m.inquiry.toLower "invest" then "specialist" else "refund"
  ⟨choice, result, m.request_id⟩

/-- `EquitySpecialist.on_handoff`: returns early (no output, no
service call) unless `handler == "specialist"`; otherwise calls the
service on the response content and prints the report line. -/
def onHandoffEquity (svc : String → String → String) (m : HandoffResponse) : Option String :=
  if m.handler != "specialist" then none
  else
    some ("Equity Specialist report (" ++ m.request_id ++ "):\n" ++ svc equitySystem m.content)

/-- `HumanAdvisor.on_handoff`: returns early unless
`handler == "refund"`; otherwise prints the refund line (no service
call in this handler). -/
def onHandoffHuman (m : HandoffResponse) : Option String :=
  if m.handler != "refund" then none
  else
    some ("Human Advisor handling refund (" ++ m.request_id ++ "):\n" ++ m.content)

end AgHandoff

namespace AgConcurrent

/-- Dataclass `InvestmentRequest` from `ag_concurrent.py` (payload
values are all strings in the source scenario). -/
structure InvestmentRequest where
  company : String
  financial_data : List (String × String)
  request_id : String
deriving DecidableEq

/-- Dataclass `AnalysisResult` from `ag_concurrent.py`; the float
`confidence_score` is embedded as a rational since the code only ever
assigns and compares the literals 0.8, 0.75 and 0.7. -/
structure AnalysisResult where
  analyst_type : String
  company : String
  analysis : String
  recommendation : String
  confidence_score : ℚ
  request_id : String
deriving DecidableEq

/-- Constructor configuration of one `BaseAnalysisAgent` subclass:
the agent name, the `service_id` used as registration key and
`analyst_type` tag, and the system prompt. -/
structure AnalystSpec where
  agent_name : String
  service_id : String
  system_prompt : String
deriving DecidableEq

/-- `FundamentalAnalyst` constructor arguments. -/
def fundamentalAnalyst : AnalystSpec :=
  ⟨"Fundamental Analysis Agent", "fundamental_analyst",
   "You are a fundamental analyst specializing in company valuation. " ++
   "Analyze financial statements, revenue growth, and market position. " ++
   "Provide bullet-point findings and BUY/HOLD/SELL recommendation."⟩

/-- `TechnicalAnalyst` constructor arguments. -/
def technicalAnalyst : AnalystSpec :=
  ⟨"Technical Analysis Agent", "technical_analyst",
   "You are a technical analyst specializing in price patterns and volume trends. " ++
   "Assess moving averages, RSI, MACD. Provide bullet-point summary and recommendation."⟩

/-- `SentimentAnalyst` constructor arguments. -/
def sentimentAnalyst : AnalystSpec :=
  ⟨"Sentiment Analysis Agent", "sentiment_analyst",
   "You are a sentiment analyst focusing on news and social media trends. " ++
   "Evaluate sentiment, provide a score, and BUY/HOLD/SELL recommendation."⟩

/-- The three analysts registered by
`run_concurrent_investment_analysis`, in registration order. -/
def registeredAnalysts : List AnalystSpec :=
  [fundamentalAnalyst, technicalAnalyst, sentimentAnalyst]

/-- Prompt built inside `BaseAnalysisAgent.analyze`. -/
def analyzePrompt (a : AnalystSpec) (m : InvestmentRequest) : String :=
  "Task for " ++ titleCase ((a.service_id).replace "_" " ") ++ ":\n" ++
  "Company: " ++ m.company ++ "\n" ++
  "Data: " ++ dictStr m.financial_data

/-- Recommendation extraction from `BaseAnalysisAgent.analyze`:
default `("HOLD", 0.7)`, overridden to `("BUY", 0.8)` when the
upper-cased content contains `"BUY"`, else to `("SELL", 0.75)` when it
contains `"SELL"`. -/
def extractRecommendation (content : String) : String × ℚ :=
  if strContains content.toUpper "BUY" then ("BUY", 0.8)
  else if strContains content.toUpper "SELL" then ("SELL", 0.75)
  else ("HOLD", 0.7)

/-- `BaseAnalysisAgent.analyze` with the completion content already
obtained: the single `AnalysisResult` published to the results topic. -/
def analysisOf (a : AnalystSpec) (content : String) (m : InvestmentRequest) : AnalysisResult :=
  let rc := extractRecommendation content
  ⟨a.service_id, m.company, content, rc.1, rc.2, m.request_id⟩

/-- `BaseAnalysisAgent.analyze` end to end: one service call on the
system prompt and built prompt, then one published result. -/
def analyze (a : AnalystSpec) (svc : String → String → String) (m : InvestmentRequest) :
    AnalysisResult :=
  analysisOf a (svc a.system_prompt (analyzePrompt a m)) m

/-- Fan-out run of `run_concurrent_investment_analysis`: the seed
request is delivered to every registered analyst and each publishes
one `AnalysisResult` to the results topic. -/
def runConcurrent (svc : String → String → String) (m : InvestmentRequest) :
    List AnalysisResult :=
  registeredAnalysts.map (fun a => analyze a svc m)

/-- Error raised when the Completion Service call fails (taxonomy name
`ServiceError`). -/
inductive ServiceError where
  | service : String → ServiceError
deriving DecidableEq

/-- Instrumented `BaseAnalysisAgent.analyze` over a fallible service:
returns the trace of `create` invocations made (as system-prompt and
user-prompt pairs) together with the outcome. The handler has one
`await create` and no retry or exception handling, so a failure
propagates after the single call. -/
def analyzeWith (a : AnalystSpec) (svc : String → String → Except ServiceError String)
    (m : InvestmentRequest) :
    List (String × String) × Except ServiceError AnalysisResult :=
  let call := (a.system_prompt, analyzePrompt a m)
  match svc call.1 call.2 with
  | Except.error e => ([call], Except.error e)
  | Except.ok content => ([call], Except.ok (analysisOf a content m))

end AgConcurrent

namespace AgGroupChat

/-- Dataclass `GroupMessage` from `ag_groupchat.py`. -/
structure GroupMessage where
  text : String
deriving DecidableEq

/-- System prompt of the group-chat `FundamentalAnalyst`. -/
def fundamentalSystem : String := "Provide a brief fundamental analysis."

/-- Instrumented `FundamentalAnalyst.on_discussion` over a fallible
service: one `create` invocation on the message text, result printed;
no retry and no exception handling around the call. -/
def onDiscussionWith (svc : String → String → Except AgConcurrent.ServiceError String)
    (m : GroupMessage) :
    List (String × String) × Except AgConcurrent.ServiceError String :=
  match svc fundamentalSystem m.text with
  | Except.error e => ([(fundamentalSystem, m.text)], Except.error e)
  | Except.ok content => ([(fundamentalSystem, m.text)], Except.ok content)

end AgGroupChat

namespace SkHandoff

/-- One handoff edge registered on `OrchestrationHandoffs` in
`sk_handoff.py` (source agent, target agent, description). -/
structure HandoffEdge where
  source : String
  target : String
  description : String
deriving DecidableEq

/-- The handoff graph built by `get_agents`: triage to the two
targets, and the equity specialist back to triage. -/
def handoffEdges : List HandoffEdge :=
  [⟨"TriageAdvisor", "EquitySpecialist", "Equity requests"⟩,
   ⟨"TriageAdvisor", "HumanAdvisor", "Complex cases"⟩,
   ⟨"EquitySpecialist", "TriageAdvisor", "Return to triage"⟩]

/-- Configuration handed to `HandoffOrchestration` in
`run_handoff_investment_consultation`: the member names, the handoff
graph, and the maximum hop count if one is configured. The source
passes no hop-bound argument of any kind, embedded as `none`. -/
structure HandoffOrchestrationConfig where
  members : List String
  handoffs : List HandoffEdge
  maximumHopBound : Option Nat
deriving DecidableEq

/-- The orchestration actually constructed by
`run_handoff_investment_consultation`. -/
def orchestration : HandoffOrchestrationConfig :=
  ⟨["TriageAdvisor", "EquitySpecialist", "HumanAdvisor"], handoffEdges, none⟩

/-- The only limit present in the source run: `result.get(timeout=120)`
seconds on collecting the final result. -/
def resultTimeoutSeconds : Nat := 120

end SkHandoff

namespace SkGroupChat

/-- Member agent names of the investment committee in
`sk_groupchat.py`, in declared order. -/
def committeeMembers : List String := ["Moderator", "FundamentalAnalyst", "RiskManager"]

/-- The `max_rounds` argument of `RoundRobinGroupChatManager` in
`sk_groupchat.py`. -/
def maxRounds : Nat := 5

/-- Modelled from the spec: the round-robin orchestration engine
(`RoundRobinGroupChatManager` of the external semantic-kernel
framework, not part of this repository) maintains a cursor over the
ordered member list, each turn dispatches to the member at the cursor,
advances the cursor wrapping around, and stops after the configured
maximum round count, giving `maxRounds * members.length` turns in
total. `fuel` is the number of turns still to execute. -/
def rrRun (members : List String) : Nat → Nat → List String
  | 0, _ => []
  | Nat.succ n, cursor => members.getD (cursor % members.length) "" :: rrRun members n (cursor + 1)

/-- Turn sequence of the committee session as configured in the
source: 3 members, `max_rounds = 5`, cursor starting at the first
member. -/
def sessionTurns : List String :=
  rrRun committeeMembers (maxRounds * committeeMembers.length) 0

end SkGroupChat

theorem dictFind_insert (d : List (String × String)) (k v : String) :
    dictFind? (dictInsert d k v) k = some v := by
  induction d with
  | nil => simp [dictInsert, dictFind?]
  | cons p t ih =>
    by_cases h : p.1 = k
    · simp [dictInsert, dictFind?, h]
    · have hne : (p.1 == k) = false := by simp [h]
      simp only [dictInsert, hne, Bool.false_eq_true, if_false, dictFind?,
        List.find?_cons, hne] at ih ⊢
      exact ih

/-- C1 counterexample: running the data-collector stage on the seed task of
`run_sequential_scenario` writes the key `collected` into the payload dict
of the received `InvestmentTask` (the post-handler state of the received
task differs from its initial state), and the message published onward is
that same mutated task, not a new one. -/
theorem c1_counterexample :
    ((AgSequential.onCollect "collected-data" AgSequential.sampleTask).1).data ≠
      AgSequential.sampleTask.data ∧
    (AgSequential.onCollect "collected-data" AgSequential.sampleTask).1 =
      (AgSequential.onCollect "collected-data" AgSequential.sampleTask).2 := by
  exact ⟨by decide, rfl⟩

/-- C1 amended: the sequential stage handlers mutate the received
`InvestmentTask` in place — `on_collect` writes `data["collected"]` and
`on_analyze` writes `data["analysis"]` into the received payload dict —
and publish the same mutated task rather than a new Message; the company
field is left unchanged, and whenever the written key did not already map
to the written value the received payload really changes. -/
theorem c1_amended_mutation (cCollect cAnalyze : String) (m : AgSequential.InvestmentTask)
    (h : dictFind? m.data "collected" ≠ some cCollect) :
    (AgSequential.onCollect cCollect m).2 = (AgSequential.onCollect cCollect m).1 ∧
    ((AgSequential.onCollect cCollect m).1).company = m.company ∧
    ((AgSequential.onCollect cCollect m).1).data = dictInsert m.data "collected" cCollect ∧
    (AgSequential.onAnalyze cAnalyze m).2 = (AgSequential.onAnalyze cAnalyze m).1 ∧
    ((AgSequential.onAnalyze cAnalyze m).1).company = m.company ∧
    ((AgSequential.onAnalyze cAnalyze m).1).data = dictInsert m.data "analysis" cAnalyze ∧
    ((AgSequential.onCollect cCollect m).1).data ≠ m.data := by
  refine ⟨rfl, rfl, rfl, rfl, rfl, rfl, ?_⟩
  intro hd
  apply h
  calc dictFind? m.data "collected"
      = dictFind? ((AgSequential.onCollect cCollect m).1).data "collected" := by rw [hd]
    _ = dictFind? (dictInsert m.data "collected" cCollect) "collected" := rfl
    _ = some cCollect := dictFind_insert m.data "collected" cCollect

/-- Witness for the C1 amended theorem at the seed task of
`run_sequential_scenario` and concrete completion contents. -/
theorem c1_amended_mutation_witness :
    (AgSequential.onCollect "X" AgSequential.sampleTask).2 =
      (AgSequential.onCollect "X" AgSequential.sampleTask).1 ∧
    ((AgSequential.onCollect "X" AgSequential.sampleTask).1).company =
      AgSequential.sampleTask.company ∧
    ((AgSequential.onCollect "X" AgSequential.sampleTask).1).data =
      dictInsert AgSequential.sampleTask.data "collected" "X" ∧
    (AgSequential.onAnalyze "Y" AgSequential.sampleTask).2 =
      (AgSequential.onAnalyze "Y" AgSequential.sampleTask).1 ∧
    ((AgSequential.onAnalyze "Y" AgSequential.sampleTask).1).company =
      AgSequential.sampleTask.company ∧
    ((AgSequential.onAnalyze "Y" AgSequential.sampleTask).1).data =
      dictInsert AgSequential.sampleTask.data "analysis" "Y" ∧
    ((AgSequential.onCollect "X" AgSequential.sampleTask).1).data ≠
      AgSequential.sampleTask.data :=
  c1_amended_mutation "X" "Y" AgSequential.sampleTask (by decide)

/-- C2: for every inquiry, the triage handler published by
`TriageAdvisor.on_request` is `"specialist"` exactly when the lower-cased
inquiry contains the substring `"invest"`, is `"refund"` exactly
otherwise, and is never any other value. -/
theorem c2_triage_keyword_routing (svc : String → String → String)
    (m : AgHandoff.InvestmentRequest) :
    ((AgHandoff.onRequest svc m).handler = "specialist" ↔
      strContains m.inquiry.toLower "invest" = true) ∧
    ((AgHandoff.onRequest svc m).handler = "refund" ↔
      strContains m.inquiry.toLower "invest" = false) ∧
    ((AgHandoff.onRequest svc m).handler = "specialist" ∨
      (AgHandoff.onRequest svc m).handler = "refund") := by
  cases h : strContains m.inquiry.toLower "invest" <;>
    simp [AgHandoff.onRequest, h]

/-- C3: for every published triage response, `EquitySpecialist.on_handoff`
produces output exactly when the handler is `"specialist"`,
`HumanAdvisor.on_handoff` exactly when it is `"refund"`, and exactly one
of the two targets handles each request. -/
theorem c3_exactly_one_target (svcT svcE : String → String → String)
    (m : AgHandoff.InvestmentRequest) :
    ((AgHandoff.onHandoffEquity svcE (AgHandoff.onRequest svcT m)).isSome = true ↔
      (AgHandoff.onRequest svcT m).handler = "specialist") ∧
    ((AgHandoff.onHandoffHuman (AgHandoff.onRequest svcT m)).isSome = true ↔
      (AgHandoff.onRequest svcT m).handler = "refund") ∧
    (((AgHandoff.onHandoffEquity svcE (AgHandoff.onRequest svcT m)).isSome = true ∧
        (AgHandoff.onHandoffHuman (AgHandoff.onRequest svcT m)).isSome = false) ∨
      ((AgHandoff.onHandoffEquity svcE (AgHandoff.onRequest svcT m)).isSome = false ∧
        (AgHandoff.onHandoffHuman (AgHandoff.onRequest svcT m)).isSome = true)) := by
  cases h : strContains m.inquiry.toLower "invest" <;>
    simp [AgHandoff.onRequest, AgHandoff.onHandoffEquity, AgHandoff.onHandoffHuman, h]

/-- C4: a fan-out run with the three registered analysts publishes one
`AnalysisResult` per analyst: at most three results, whose analyst
types are exactly the registered service ids, pairwise distinct. -/
theorem c4_fanout_distinct_results (svc : String → String → String)
    (m : AgConcurrent.InvestmentRequest) :
    (AgConcurrent.runConcurrent svc m).length ≤ 3 ∧
    (AgConcurrent.runConcurrent svc m).map (fun r => r.analyst_type) =
      AgConcurrent.registeredAnalysts.map (fun a => a.service_id) ∧
    ((AgConcurrent.runConcurrent svc m).map (fun r => r.analyst_type)).Nodup := by
  refine ⟨?_, ?_, ?_⟩ <;>
    simp [AgConcurrent.runConcurrent, AgConcurrent.registeredAnalysts,
      AgConcurrent.analyze, AgConcurrent.analysisOf, AgConcurrent.fundamentalAnalyst,
      AgConcurrent.technicalAnalyst, AgConcurrent.sentimentAnalyst]

/-- C5: each handler makes exactly one Completion Service call per
message and never retries — the invocation trace of
`BaseAnalysisAgent.analyze` and of `FundamentalAnalyst.on_discussion`
has length one, and a failure of that single call propagates out as the
handler's outcome. -/
theorem c5_single_service_call (a : AgConcurrent.AnalystSpec)
    (svc : String → String → Except AgConcurrent.ServiceError String)
    (m : AgConcurrent.InvestmentRequest) (g : AgGroupChat.GroupMessage)
    (e : AgConcurrent.ServiceError) :
    (AgConcurrent.analyzeWith a svc m).1.length = 1 ∧
    ((AgConcurrent.analyzeWith a svc m).2 = Except.error e ↔
      svc a.system_prompt (AgConcurrent.analyzePrompt a m) = Except.error e) ∧
    (AgGroupChat.onDiscussionWith svc g).1.length = 1 ∧
    ((AgGroupChat.onDiscussionWith svc g).2 = Except.error e ↔
      svc AgGroupChat.fundamentalSystem g.text = Except.error e) := by
  refine ⟨?_, ?_, ?_, ?_⟩
  · cases h : svc a.system_prompt (AgConcurrent.analyzePrompt a m) <;>
      simp [AgConcurrent.analyzeWith, h]
  · cases h : svc a.system_prompt (AgConcurrent.analyzePrompt a m) <;>
      simp [AgConcurrent.analyzeWith, h]
  · cases h : svc AgGroupChat.fundamentalSystem g.text <;>
      simp [AgGroupChat.onDiscussionWith, h]
  · cases h : svc AgGroupChat.fundamentalSystem g.text <;>
      simp [AgGroupChat.onDiscussionWith, h]

/-- C6: the correlation identifier is preserved unchanged — the
`HandoffResponse` published by triage carries the request id of the
classified `InvestmentRequest`, and the `AnalysisResult` published by an
analyst carries the request id and company of the analyzed request. -/
theorem c6_request_id_preserved (svcT svcA : String → String → String)
    (m : AgHandoff.InvestmentRequest) (a : AgConcurrent.AnalystSpec)
    (r : AgConcurrent.InvestmentRequest) :
    (AgHandoff.onRequest svcT m).request_id = m.request_id ∧
    (AgConcurrent.analyze a svcA r).request_id = r.request_id ∧
    (AgConcurrent.analyze a svcA r).company = r.company :=
  ⟨rfl, rfl, rfl⟩

/-- C7 counterexample: the orchestration built by
`run_handoff_investment_consultation` registers both edges of the cycle
TriageAdvisor to EquitySpecialist and back, yet configures no hop bound
of any kind — so the session does not carry the explicit maximum hop
count the claim requires. -/
theorem c7_counterexample :
    (⟨"TriageAdvisor", "EquitySpecialist", "Equity requests"⟩ : SkHandoff.HandoffEdge) ∈
      SkHandoff.orchestration.handoffs ∧
    (⟨"EquitySpecialist", "TriageAdvisor", "Return to triage"⟩ : SkHandoff.HandoffEdge) ∈
      SkHandoff.orchestration.handoffs ∧
    SkHandoff.orchestration.maximumHopBound = none := by
  exact ⟨by decide, by decide, rfl⟩

/-- C7 amended: the handoff graph does contain the cycle TriageAdvisor to
EquitySpecialist to TriageAdvisor, but the orchestration carries no
explicit hop bound; the only limit the source configures is the
120-second timeout on collecting the final result. -/
theorem c7_amended_no_hop_bound :
    SkHandoff.orchestration.maximumHopBound = none ∧
    SkHandoff.orchestration.handoffs =
      [⟨"TriageAdvisor", "EquitySpecialist", "Equity requests"⟩,
       ⟨"TriageAdvisor", "HumanAdvisor", "Complex cases"⟩,
       ⟨"EquitySpecialist", "TriageAdvisor", "Return to triage"⟩] ∧
    SkHandoff.resultTimeoutSeconds = 120 :=
  ⟨rfl, rfl, rfl⟩

/-- C8: the round-robin committee session with members Moderator,
FundamentalAnalyst, RiskManager and `max_rounds = 5` executes
`max_rounds * 3 = 15` agent turns, no more than 15, in strict cyclic
order of the declared member list. -/
theorem c8_round_robin_turns :
    SkGroupChat.sessionTurns.length =
      SkGroupChat.maxRounds * SkGroupChat.committeeMembers.length ∧
    SkGroupChat.sessionTurns.length ≤ 15 ∧
    SkGroupChat.sessionTurns =
      ["Moderator", "FundamentalAnalyst", "RiskManager",
       "Moderator", "FundamentalAnalyst", "RiskManager",
       "Moderator", "FundamentalAnalyst", "RiskManager",
       "Moderator", "FundamentalAnalyst", "RiskManager",
       "Moderator", "FundamentalAnalyst", "RiskManager"] := by
  refine ⟨by rfl, by decide, by rfl⟩

/-- C9: the sequential pipeline is deterministic and compositional —
replaying the same initial task with the same stub service yields the
same history, and the run always succeeds with exactly the three stage
transformations (DataCollector, FundamentalAnalyst, ReportGenerator)
applied in declared order. -/
theorem c9_pipeline_deterministic (svc svcB : String → String → String)
    (h : svc = svcB) (t : AgSequential.InvestmentTask) :
    AgSequential.runSequential svc t = AgSequential.runSequential svcB t ∧
    AgSequential.runSequential svc t =
      some ⟨t, AgSequential.collectPublished svc t,
        AgSequential.analystStage svc (AgSequential.collectPublished svc t),
        AgSequential.reportStage svc
          (AgSequential.analystStage svc (AgSequential.collectPublished svc t))⟩ := by
  subst h
  refine ⟨rfl, ?_⟩
  simp [AgSequential.runSequential, AgSequential.collectPublished,
    AgSequential.analyzePublished?, AgSequential.reportOutput?, AgSequential.analystStage,
    AgSequential.reportStage, AgSequential.onCollect, AgSequential.onAnalyze, dictFind_insert]

/-- Witness for C9 at the seed task of `run_sequential_scenario` with the
deterministic stub service. -/
theorem c9_pipeline_deterministic_witness :
    AgSequential.runSequential AgSequential.stubSvc AgSequential.sampleTask =
      AgSequential.runSequential AgSequential.stubSvc AgSequential.sampleTask ∧
    AgSequential.runSequential AgSequential.stubSvc AgSequential.sampleTask =
      some ⟨AgSequential.sampleTask,
        AgSequential.collectPublished AgSequential.stubSvc AgSequential.sampleTask,
        AgSequential.analystStage AgSequential.stubSvc
          (AgSequential.collectPublished AgSequential.stubSvc AgSequential.sampleTask),
        AgSequential.reportStage AgSequential.stubSvc
          (AgSequential.analystStage AgSequential.stubSvc
            (AgSequential.collectPublished AgSequential.stubSvc AgSequential.sampleTask))⟩ :=
  c9_pipeline_deterministic AgSequential.stubSvc AgSequential.stubSvc rfl AgSequential.sampleTask

/-- C10: the recommendation extraction of `BaseAnalysisAgent.analyze` is
total and ordered — `("BUY", 0.8)` exactly when the upper-cased content
contains `"BUY"` (also when it contains `"SELL"` too), else
`("SELL", 0.75)` exactly when it contains `"SELL"`, else `("HOLD", 0.7)`;
no other pair is ever produced. -/
theorem c10_recommendation_extraction (content : String) :
    (AgConcurrent.extractRecommendation content = ("BUY", (0.8 : ℚ)) ∨
      AgConcurrent.extractRecommendation content = ("SELL", (0.75 : ℚ)) ∨
      AgConcurrent.extractRecommendation content = ("HOLD", (0.7 : ℚ))) ∧
    (AgConcurrent.extractRecommendation content = ("BUY", (0.8 : ℚ)) ↔
      strContains content.toUpper "BUY" = true) ∧
    (AgConcurrent.extractRecommendation content = ("SELL", (0.75 : ℚ)) ↔
      (strContains content.toUpper "BUY" = false ∧
        strContains content.toUpper "SELL" = true)) ∧
    (AgConcurrent.extractRecommendation content = ("HOLD", (0.7 : ℚ)) ↔
      (strContains content.toUpper "BUY" = false ∧
        strContains content.toUpper "SELL" = false)) := by
  cases hb : strContains content.toUpper "BUY" <;>
    cases hs : strContains content.toUpper "SELL" <;>
      simp [AgConcurrent.extractRecommendation, hb, hs]
